import Mathlib

/-!
Verification of the SARIF upload pipeline and status-report machinery of the
`codeql-action` excerpt (`src/upload-lib.ts`, `src/actions-util.ts`).

The TypeScript code is shallowly embedded: pure data flow becomes Lean
functions; external collaborators (the filesystem, `JSON.parse`/`stringify`,
`zlib.gzipSync`, base64 encoding, the fingerprint module, the JSON-schema
validator, the tool-name extractor, the HTTP client) are taken as explicit
function parameters, since they live outside the two source files; observable
side effects (exporting an environment variable, running the schema validator
over a file, issuing a network request) are recorded in an event trace that
each operation returns alongside its result.
-/

/-- One SARIF run: an opaque structured object carrying a `results` sequence.
Result contents are opaque to the code under verification, so each result is
represented by an opaque token. -/
structure SarifRun where
  results : List String
deriving DecidableEq, Repr

/-- A parsed SARIF document as consumed by `combineSarifFiles`:
`{ version, runs }`.  Valid SARIF carries a string `version`. -/
structure SarifDocument where
  version : String
  runs : List SarifRun
deriving DecidableEq, Repr

/-- The accumulator of `combineSarifFiles`: `version` starts as `null`
(modelled `none`) and is set from the first document. -/
structure CombinedSarif where
  version : Option String
  runs : List SarifRun
deriving DecidableEq, Repr

/-- The error thrown by `combineSarifFiles` when two input documents carry
different SARIF versions; it names both versions
("Different SARIF versions encountered: v1 and v2"). -/
inductive CombineError where
  | versionMismatch (v1 v2 : String)
deriving DecidableEq, Repr

/-- The loop body of `combineSarifFiles` (`for (const sarifFile of sarifFiles)`),
with the accumulator's fields as explicit arguments.  `readDoc` models
`JSON.parse(fs.readFileSync(sarifFile, "utf8"))`. -/
def combineSarifAux (readDoc : String → SarifDocument) :
    Option String → List SarifRun → List String → Except CombineError CombinedSarif
  | v?, runs, [] => .ok ⟨v?, runs⟩
  | none, runs, f :: rest =>
      combineSarifAux readDoc (some (readDoc f).version) (runs ++ (readDoc f).runs) rest
  | some v, runs, f :: rest =>
      if v = (readDoc f).version then
        combineSarifAux readDoc (some v) (runs ++ (readDoc f).runs) rest
      else
        .error (.versionMismatch v (readDoc f).version)

/-- The combined document constructed by `combineSarifFiles` before the final
`JSON.stringify`. -/
def combineSarifDocs (readDoc : String → SarifDocument) (sarifFiles : List String) :
    Except CombineError CombinedSarif :=
  combineSarifAux readDoc none [] sarifFiles

/-- `combineSarifFiles`: reads each file, enforces a single SARIF version,
concatenates the runs, and returns `JSON.stringify` of the combined document
(`stringify` models `JSON.stringify`). -/
def combineSarifFiles (readDoc : String → SarifDocument)
    (stringify : CombinedSarif → String) (sarifFiles : List String) :
    Except CombineError String :=
  (combineSarifDocs readDoc sarifFiles).map stringify

/-- Environment map: `process.env` (`none` = unset). -/
def EnvMap : Type := String → Option String

/-- JavaScript truthiness of an environment value: unset and the empty string
are falsy, every other string is truthy (`if (process.env[v])`). -/
def envTruthy : Option String → Bool
  | some s => s ≠ ""
  | none => false

/-- Integration mode (`util.Mode`): "actions" or "runner"/standalone. -/
inductive Mode where
  | actions
  | standalone
deriving DecidableEq, Repr

/-- Errors thrown by the upload pipeline. -/
inductive UploadError where
  | pathDoesNotExist (p : String)
  | noSarifFilesFound (p : String)
  | duplicateUpload
  | invalidSarif (file : String)
  | versionMismatch (v1 v2 : String)
deriving DecidableEq, Repr

/-- The `UploadStatusReport` record returned by a successful upload.  The
interface declares the three fields optional, but `uploadFiles` always
returns all three. -/
structure UploadStatusReport where
  rawUploadSizeBytes : Nat
  zippedUploadSizeBytes : Nat
  numResultsInSarif : Nat
deriving DecidableEq, Repr

/-- The wire payload assembled by `uploadFiles` (before `JSON.stringify`):
one shape per mode.  `startedAt` is the ambient workflow start time and
`toolName` in the standalone shape is `toolNames[0]` (`none` when the list is
empty, in which case `JSON.stringify` would drop the field). -/
inductive UploadPayload where
  | actionsPayload (commitOid ref : String) (analysisKey analysisName : Option String)
      (sarif : String) (workflowRunID : Option Nat) (checkoutURI : String)
      (environment : Option String) (startedAt : Option String) (toolNames : List String)
  | standalonePayload (commitSha ref : String) (sarif : String) (checkoutURI : String)
      (toolName : Option String)
deriving DecidableEq, Repr

/-- The `sarif` field of either payload shape. -/
def UploadPayload.sarifField : UploadPayload → String
  | .actionsPayload _ _ _ _ sarif _ _ _ _ _ => sarif
  | .standalonePayload _ _ sarif _ _ => sarif

/-- Observable side effects of the upload pipeline, in order of occurrence:
`core.exportVariable`, running the schema validator over one file, and the
HTTP request made by `uploadPayload`. -/
inductive UploadEvent where
  | exportVariable (name value : String)
  | schemaValidated (file : String)
  | networkRequest (url : String) (owner repo : String) (payload : UploadPayload)
deriving DecidableEq, Repr

/-- Whether an event is a network request. -/
def UploadEvent.isNetworkRequest : UploadEvent → Bool
  | .networkRequest _ _ _ _ => true
  | _ => false

/-- External collaborators of `upload-lib.ts`, modelled as explicit functions:
filesystem read + `JSON.parse` (`readDoc`), `JSON.stringify` of the combined
document (`stringify`), `fingerprints.addFingerprints` (payload, checkoutPath),
`zlib.gzipSync` (bytes out), base64 rendering of a byte buffer
(`Buffer.toString("base64")`), `util.getToolNames`, `fileUrl`, re-parsing the
`runs` of a serialized document (`JSON.parse(sarif).runs`, used by
`countResultsInSarif`), and the `jsonschema` validity verdict for a file. -/
structure Collaborators where
  readDoc : String → SarifDocument
  stringify : CombinedSarif → String
  addFingerprints : String → String → String
  gzip : String → List Nat
  base64 : List Nat → String
  getToolNames : String → List String
  fileUrl : String → String
  parseRuns : String → List SarifRun
  isValidSarif : String → Bool

/-- `countResultsInSarif`: sums `run.results.length` over the runs of the
parsed document. -/
def countResultsInSarif (parseRuns : String → List SarifRun) (sarif : String) : Nat :=
  ((parseRuns sarif).map (fun r => r.results.length)).sum

/-- The validation loop of `uploadFiles`: `validateSarifFileSchema` runs on
each file in order and throws on the first invalid one.  Each run of the
validator is recorded as a `schemaValidated` event. -/
def validateFiles (isValidSarif : String → Bool) :
    List String → Except UploadError Unit × List UploadEvent
  | [] => (.ok (), [])
  | f :: rest =>
    if isValidSarif f then
      let r := validateFiles isValidSarif rest
      (r.1, .schemaValidated f :: r.2)
    else
      (.error (.invalidSarif f), [.schemaValidated f])

/-- `uploadPayload`: in test mode (`process.env["TEST_MODE"] === "true"`) the
network call is skipped entirely; otherwise one request is issued against the
mode-specific endpoint.  Returns the emitted events. -/
def uploadPayload (env : EnvMap) (payload : UploadPayload) (owner repo : String)
    (mode : Mode) : List UploadEvent :=
  let testMode := env "TEST_MODE" = some "true"
  if testMode then []
  else
    [.networkRequest
      (match mode with
        | .actions => "PUT /repos/:owner/:repo/code-scanning/analysis"
        | .standalone => "POST /repos/:owner/:repo/code-scanning/sarifs")
      owner repo payload]

/-- The non-file arguments of `uploadFiles` (flattened `repositoryNwo` plus
the identity fields that feed the payload). -/
structure UploadArgs where
  owner : String
  repo : String
  commitOid : String
  ref : String
  analysisKey : Option String
  analysisName : Option String
  workflowRunID : Option Nat
  checkoutPath : String
  environment : Option String
deriving DecidableEq, Repr

/-- The mode dispatch of `uploadFiles` that assembles the wire payload:
the "actions" shape carries the analysis identity, the ambient workflow start
time and all tool names; the standalone shape carries `commit_sha`, `ref`,
the encoded SARIF, the checkout URI and `toolNames[0]`. -/
def assemblePayload (env : EnvMap) (args : UploadArgs) (mode : Mode)
    (zippedSarif checkoutURI : String) (toolNames : List String) : UploadPayload :=
  match mode with
  | .actions =>
      .actionsPayload args.commitOid args.ref args.analysisKey args.analysisName
        zippedSarif args.workflowRunID checkoutURI args.environment
        (env "CODEQL_WORKFLOW_STARTED_AT") toolNames
  | .standalone =>
      .standalonePayload args.commitOid args.ref zippedSarif checkoutURI
        toolNames.head?

/-- `uploadFiles`: per-job sentinel guard (actions mode only), schema
validation of every file, combination, fingerprint enrichment, gzip + base64,
payload assembly, the three observability numbers, and the network call.
Returns the result together with the trace of observable events. -/
def uploadFiles (C : Collaborators) (env : EnvMap) (sarifFiles : List String)
    (args : UploadArgs) (mode : Mode) :
    Except UploadError UploadStatusReport × List UploadEvent :=
  if mode = .actions ∧ envTruthy (env "CODEQL_UPLOAD_SARIF") then
    (.error .duplicateUpload, [])
  else
    let guardEvents : List UploadEvent :=
      match mode with
      | .actions => [.exportVariable "CODEQL_UPLOAD_SARIF" "CODEQL_UPLOAD_SARIF"]
      | .standalone => []
    match validateFiles C.isValidSarif sarifFiles with
    | (.error e, vevs) => (.error e, guardEvents ++ vevs)
    | (.ok _, vevs) =>
      match combineSarifFiles C.readDoc C.stringify sarifFiles with
      | .error (.versionMismatch v1 v2) =>
          (.error (.versionMismatch v1 v2), guardEvents ++ vevs)
      | .ok combined =>
        let sarifPayload := C.addFingerprints combined args.checkoutPath
        let zippedSarif := C.base64 (C.gzip sarifPayload)
        let checkoutURI := C.fileUrl args.checkoutPath
        let toolNames := C.getToolNames sarifPayload
        let payload := assemblePayload env args mode zippedSarif checkoutURI toolNames
        let rawUploadSizeBytes := sarifPayload.length
        let zippedUploadSizeBytes := zippedSarif.length
        let numResultInSarif := countResultsInSarif C.parseRuns sarifPayload
        let uploadEvents := uploadPayload env payload args.owner args.repo mode
        (.ok ⟨rawUploadSizeBytes, zippedUploadSizeBytes, numResultInSarif⟩,
          guardEvents ++ vevs ++ uploadEvents)

/-- The filesystem operations used by `upload`. -/
structure FileSystem where
  existsSync : String → Bool
  isDirectory : String → Bool
  readdirSync : String → List String

/-- `path.resolve(sarifPath, f)`, simplified to path joining (the inputs the
claims touch are plain names inside the directory). -/
def pathResolve (dir f : String) : String := dir ++ "/" ++ f

/-- `f.endsWith(".sarif")`: suffix test on the character sequence. -/
def strEndsWith (s suffix : String) : Bool := suffix.data.isSuffixOf s.data

/-- `upload`: a directory is expanded to the contained files ending in
".sarif" (error if none), while a single existing file is uploaded as-is;
then delegates to `uploadFiles`. -/
def upload (fsys : FileSystem) (C : Collaborators) (env : EnvMap)
    (sarifPath : String) (args : UploadArgs) (mode : Mode) :
    Except UploadError UploadStatusReport × List UploadEvent :=
  if ¬ fsys.existsSync sarifPath then
    (.error (.pathDoesNotExist sarifPath), [])
  else if fsys.isDirectory sarifPath then
    let sarifFiles :=
      ((fsys.readdirSync sarifPath).filter (fun f => strEndsWith f ".sarif")).map
        (pathResolve sarifPath)
    if sarifFiles = [] then
      (.error (.noSarifFilesFound sarifPath), [])
    else
      uploadFiles C env sarifFiles args mode
  else
    uploadFiles C env [sarifPath] args mode

/-- Point-update of an environment map. -/
def setEnv (env : EnvMap) (k : String) (v : Option String) : EnvMap :=
  fun k' => if k' = k then v else env k'

/-- Concrete document store for witnesses: `a.sarif` has one run with two
results, every other path one empty run; all version "2.1.0". -/
def testReadDoc : String → SarifDocument := fun f =>
  if f = "a.sarif" then ⟨"2.1.0", [⟨["r1", "r2"]⟩]⟩ else ⟨"2.1.0", [⟨[]⟩]⟩

/-- Concrete collaborators for witnesses (simple executable stand-ins for the
external functions). -/
def testCollab : Collaborators where
  readDoc := testReadDoc
  stringify := fun c => String.join (c.runs.map (fun r => String.join r.results))
  addFingerprints := fun s _ => s ++ "#fp"
  gzip := fun s => s.toList.map Char.toNat
  base64 := fun l => toString l
  getToolNames := fun _ => ["CodeQL"]
  fileUrl := fun p => "file://" ++ p
  parseRuns := fun _ => [⟨["x", "y"]⟩]
  isValidSarif := fun _ => true

/-- An empty environment. -/
def testEnvEmpty : EnvMap := fun _ => none

/-- An environment in which the upload sentinel has been claimed. -/
def testEnvClaimed : EnvMap := fun k =>
  if k = "CODEQL_UPLOAD_SARIF" then some "CODEQL_UPLOAD_SARIF" else none

/-- An environment with the test-mode flag active. -/
def testEnvTestMode : EnvMap := fun k => if k = "TEST_MODE" then some "true" else none

/-- Concrete upload arguments for witnesses. -/
def testArgs : UploadArgs :=
  ⟨"octo", "repo", "deadbeef", "refs/heads/main", some "key", none, some 42, "/checkout", none⟩

/-- Concrete filesystem for witnesses: every path exists, only "dir" is a
directory, and it holds two ".sarif" files and one other file. -/
def testFS : FileSystem where
  existsSync := fun _ => true
  isDirectory := fun p => p = "dir"
  readdirSync := fun _ => ["a.sarif", "note.txt", "b.sarif"]

/-- `getRequiredEnvParam`: returns the environment value, failing when it is
unset or empty. -/
def getRequiredEnvParam (env : EnvMap) (paramName : String) : Except String String :=
  match env paramName with
  | none => .error (paramName ++ " environment variable must be set")
  | some value =>
    if value.length = 0 then .error (paramName ++ " environment variable must be set")
    else .ok value

/-- `GITHUB_DOTCOM_URL` (from `util.ts`): the canonical public endpoint. -/
def GITHUB_DOTCOM_URL : String := "https://github.com"

/-- Observable outcome of `sendStatusReport`: the returned boolean, whether
`core.setFailed` was called, and whether the HTTP request was issued. -/
structure SendResult where
  returned : Bool
  jobFailed : Bool
  networkCalled : Bool
deriving DecidableEq, Repr

/-- `sendStatusReport`: skips transmission for non-dotcom servers and local
runs; otherwise sends the report and, only when `ignoreFailures` is false,
classifies HTTP 403/404 as fatal (returning false and failing the job);
every other response returns true.  `localRun` models `isLocalRun()` and
`respStatus` the HTTP status of the one request. -/
def sendStatusReport {S : Type} (env : EnvMap) (localRun : Bool) (_statusReport : S)
    (respStatus : Nat) (ignoreFailures : Bool) : Except String SendResult :=
  match getRequiredEnvParam env "GITHUB_SERVER_URL" with
  | .error e => .error e
  | .ok serverUrl =>
    if serverUrl ≠ GITHUB_DOTCOM_URL then .ok ⟨true, false, false⟩
    else if localRun then .ok ⟨true, false, false⟩
    else
      match getRequiredEnvParam env "GITHUB_REPOSITORY" with
      | .error e => .error e
      | .ok _nwo =>
        if ¬ignoreFailures ∧ respStatus = 403 then .ok ⟨false, true, true⟩
        else if ¬ignoreFailures ∧ respStatus = 404 then .ok ⟨false, true, true⟩
        else .ok ⟨true, false, true⟩

/-- The four action names. -/
inductive ActionName where
  | init
  | autobuild
  | finish
  | uploadSarif
deriving DecidableEq, Repr

/-- The four action statuses; `starting` is the only non-terminal one. -/
inductive ActionStatus where
  | starting
  | aborted
  | success
  | failure
deriving DecidableEq, Repr

/-- A JavaScript number as produced by `parseInt`: either NaN or an integer. -/
inductive JsNumber where
  | nan
  | int (n : Int)
deriving DecidableEq, Repr

/-- JavaScript whitespace test used by `parseInt` and `trim` (common cases). -/
def isJsWhitespace (c : Char) : Bool :=
  c == ' ' || c == '\t' || c == '\n' || c == '\r'

/-- `parseInt(s, 10)`: skip leading whitespace, optional sign, then leading
digits; NaN when no digit follows. -/
def parseIntJS (s : String) : JsNumber :=
  let cs := s.data.dropWhile isJsWhitespace
  let sign : Int := if cs.head? = some '-' then -1 else 1
  let cs := if cs.head? = some '-' || cs.head? = some '+' then cs.tail else cs
  let digits := cs.takeWhile Char.isDigit
  if digits.isEmpty then .nan
  else .int (sign * (digits.foldl (fun acc c => acc * 10 + (c.toNat - 48)) (0 : Nat) : Nat))

/-- `String.prototype.trim()` on the character sequence. -/
def strTrim (s : String) : String :=
  ⟨((s.data.dropWhile isJsWhitespace).reverse.dropWhile isJsWhitespace).reverse⟩

/-- Matches `/refs\/pull\/(\d+)\/merge/` at the head of `cs`, returning the
digit group and the matched length. -/
def pullMergeMatchAt (cs : List Char) : Option (List Char × Nat) :=
  if cs.take 10 = "refs/pull/".data then
    let rest := cs.drop 10
    let digits := rest.takeWhile Char.isDigit
    if digits.isEmpty then none
    else if (rest.drop digits.length).take 6 = "/merge".data then
      some (digits, 10 + digits.length + 6)
    else none
  else none

/-- `pull_ref_regex.test(ref)`: unanchored search for the pattern. -/
def isPullMergeRef (ref : String) : Bool :=
  go ref.data
where go : List Char → Bool
  | [] => false
  | c :: rest => (pullMergeMatchAt (c :: rest)).isSome || go rest

/-- `ref.replace(pull_ref_regex, "refs/pull/$1/head")`: rewrite the first
match, leave the rest unchanged. -/
def replacePullMergeChars : List Char → List Char
  | [] => []
  | c :: rest =>
    match pullMergeMatchAt (c :: rest) with
    | some (digits, n) =>
        "refs/pull/".data ++ digits ++ "/head".data ++ (c :: rest).drop n
    | none => c :: replacePullMergeChars rest

/-- String wrapper for `replacePullMergeChars`. -/
def refReplacePullMerge (ref : String) : String := ⟨replacePullMergeChars ref.data⟩

/-- `getCommitOid`: the trimmed stdout of `git rev-parse HEAD` when git
succeeds (supplied as `gitCommit`); on git failure, the required
`GITHUB_SHA`. -/
def getCommitOid (env : EnvMap) (gitCommit : Option String) : Except String String :=
  match gitCommit with
  | some out => .ok (strTrim out)
  | none => getRequiredEnvParam env "GITHUB_SHA"

/-- `getRef`: the required `GITHUB_REF`, rewritten from the merge ref to the
head ref when the checked-out commit differs from `GITHUB_SHA` (the
`GITHUB_SHA` requirement is only evaluated when the ref matches the
pull-merge pattern, mirroring the short-circuit `&&`). -/
def getRef (env : EnvMap) (gitCommit : Option String) : Except String String :=
  match getRequiredEnvParam env "GITHUB_REF" with
  | .error e => .error e
  | .ok ref =>
    match getCommitOid env gitCommit with
    | .error e => .error e
    | .ok checkoutSha =>
      if isPullMergeRef ref then
        match getRequiredEnvParam env "GITHUB_SHA" with
        | .error e => .error e
        | .ok sha => if checkoutSha ≠ sha then .ok (refReplacePullMerge ref) else .ok ref
      else .ok ref

/-- `getWorkflowPath`: requires `GITHUB_REPOSITORY` and `GITHUB_RUN_ID`, then
resolves the workflow path through the API (`apiWorkflowPath` models the
value returned by the two API calls). -/
def getWorkflowPath (env : EnvMap) (apiWorkflowPath : String) : Except String String :=
  match getRequiredEnvParam env "GITHUB_REPOSITORY" with
  | .error e => .error e
  | .ok _repoNwo =>
    match getRequiredEnvParam env "GITHUB_RUN_ID" with
    | .error e => .error e
    | .ok _runID => .ok apiWorkflowPath

/-- `getAnalysisKey`: the cached `CODEQL_ACTION_ANALYSIS_KEY` when defined
(even empty), else workflow path + ":" + required `GITHUB_JOB`. -/
def getAnalysisKey (env : EnvMap) (apiWorkflowPath : String) : Except String String :=
  match env "CODEQL_ACTION_ANALYSIS_KEY" with
  | some analysisKey => .ok analysisKey
  | none =>
    match getWorkflowPath env apiWorkflowPath with
    | .error e => .error e
    | .ok workflowPath =>
      match getRequiredEnvParam env "GITHUB_JOB" with
      | .error e => .error e
      | .ok jobName => .ok (workflowPath ++ ":" ++ jobName)

/-- `core.getInput(name, { required: true })` over the action's inputs:
missing or empty throws; the value is returned trimmed. -/
def getRequiredInput (inputs : EnvMap) (name : String) : Except String String :=
  let val := (inputs name).getD ""
  if val = "" then .error ("Input required and not supplied: " ++ name)
  else .ok (strTrim val)

/-- JS truthiness filter for the optional `cause`/`exception` parameters:
only a provided, non-empty string is recorded. -/
def optTruthy : Option String → Option String
  | some s => if s ≠ "" then some s else none
  | none => none

/-- The status report record (`StatusReportBase`). -/
structure StatusReportBase where
  workflow_run_id : JsNumber
  workflow_name : String
  job_name : String
  analysis_key : String
  matrix_vars : Option String
  commit_oid : String
  ref : String
  action_name : ActionName
  action_oid : String
  started_at : String
  action_started_at : String
  completed_at : Option String
  status : ActionStatus
  cause : Option String
  exception : Option String
deriving DecidableEq, Repr

/-- `createStatusReportBase`: composes the status report from the ambient
environment.  `gitCommit` models the git collaborator (as in `getCommitOid`),
`apiWorkflowPath` the API-resolved workflow path, `now` the ISO rendering of
`new Date()` and `actionStartedAt` that of the `actionStartedAt` argument.
`GITHUB_SHA`, `GITHUB_RUN_ID`, `GITHUB_WORKFLOW` and `GITHUB_JOB` are
defaulted ("" / -1) when absent; `GITHUB_REF` (via `getRef`), the analysis
key lookup and the required "matrix" input can fail. -/
def createStatusReportBase (env inputs : EnvMap) (gitCommit : Option String)
    (apiWorkflowPath : String) (now : String) (actionName : ActionName)
    (status : ActionStatus) (actionStartedAt : String)
    (cause exception : Option String) : Except String StatusReportBase :=
  let commitOid := (env "GITHUB_SHA").getD ""
  match getRef env gitCommit with
  | .error e => .error e
  | .ok ref =>
    let workflowRunID : JsNumber :=
      match env "GITHUB_RUN_ID" with
      | some s => if s ≠ "" then parseIntJS s else .int (-1)
      | none => .int (-1)
    let workflowName := (env "GITHUB_WORKFLOW").getD ""
    let jobName := (env "GITHUB_JOB").getD ""
    match getAnalysisKey env apiWorkflowPath with
    | .error e => .error e
    | .ok analysisKey =>
      let workflowStartedAt :=
        match env "CODEQL_WORKFLOW_STARTED_AT" with
        | some s => s
        | none => actionStartedAt
      match getRequiredInput inputs "matrix" with
      | .error e => .error e
      | .ok matrix =>
        .ok {
          workflow_run_id := workflowRunID
          workflow_name := workflowName
          job_name := jobName
          analysis_key := analysisKey
          matrix_vars := if matrix ≠ "" then some matrix else none
          commit_oid := commitOid
          ref := ref
          action_name := actionName
          action_oid := "unknown"
          started_at := workflowStartedAt
          action_started_at := actionStartedAt
          completed_at :=
            if status = .success ∨ status = .failure ∨ status = .aborted then some now
            else none
          status := status
          cause := optTruthy cause
          exception := optTruthy exception }

/-- Environment for status-report theorems' witnesses: `GITHUB_REF` and the
cached analysis key are present; `GITHUB_RUN_ID`, `GITHUB_JOB`, `GITHUB_SHA`
and `GITHUB_WORKFLOW` are all absent. -/
def testEnvStatus : EnvMap := fun k =>
  if k = "GITHUB_REF" then some "refs/heads/main"
  else if k = "CODEQL_ACTION_ANALYSIS_KEY" then some "wf:job"
  else none

/-- Action inputs for witnesses: only "matrix" is supplied. -/
def testInputs : EnvMap := fun k => if k = "matrix" then some "{}" else none

/-- Environment for the status-report transmission witness. -/
def testEnvSend : EnvMap := fun k =>
  if k = "GITHUB_SERVER_URL" then some GITHUB_DOTCOM_URL
  else if k = "GITHUB_REPOSITORY" then some "octo/repo"
  else none

/-- The report composed at the concrete fixtures with status `success`. -/
def testRepSuccess : StatusReportBase :=
  { workflow_run_id := .int (-1), workflow_name := "", job_name := "",
    analysis_key := "wf:job", matrix_vars := some "{}", commit_oid := "",
    ref := "refs/heads/main", action_name := .init, action_oid := "unknown",
    started_at := "T0", action_started_at := "T0", completed_at := some "T1",
    status := .success, cause := none, exception := none }

/-- Once the accumulator's version is fixed at `v` and every remaining file's
document carries version `v`, the loop appends all their runs in order. -/
lemma combineSarifAux_all_eq (readDoc : String → SarifDocument) (v : String)
    (files : List String) (runs : List SarifRun)
    (h : ∀ f ∈ files, (readDoc f).version = v) :
    combineSarifAux readDoc (some v) runs files =
      .ok ⟨some v, runs ++ files.flatMap (fun f => (readDoc f).runs)⟩ := by
  induction files generalizing runs with
  | nil => simp [combineSarifAux]
  | cons f rest ih =>
    have hf : (readDoc f).version = v := h f (by simp)
    simp only [combineSarifAux, hf, if_pos rfl]
    rw [ih _ (fun g hg => h g (by simp [hg]))]
    simp [List.flatMap_cons]

/-- Once the accumulator's version is fixed at `v`, a remaining file whose
document carries a different version forces a `versionMismatch` error whose
first component is `v`. -/
lemma combineSarifAux_mismatch (readDoc : String → SarifDocument) (v : String)
    (files : List String) (runs : List SarifRun)
    (h : ∃ f ∈ files, (readDoc f).version ≠ v) :
    ∃ w, w ≠ v ∧
      combineSarifAux readDoc (some v) runs files = .error (.versionMismatch v w) := by
  induction files generalizing runs with
  | nil => simp at h
  | cons f rest ih =>
    by_cases hf : (readDoc f).version = v
    · have hrest : ∃ g ∈ rest, (readDoc g).version ≠ v := by
        rcases h with ⟨g, hg, hgv⟩
        rcases List.mem_cons.mp hg with rfl | hgrest
        · exact absurd hf hgv
        · exact ⟨g, hgrest, hgv⟩
      rcases ih (runs ++ (readDoc f).runs) hrest with ⟨w, hw, hrun⟩
      exact ⟨w, hw, by simp only [combineSarifAux, hf, if_pos rfl]; exact hrun⟩
    · refine ⟨(readDoc f).version, fun hc => hf hc, ?_⟩
      simp only [combineSarifAux]
      rw [if_neg (fun hc => hf hc.symm)]

/-- C1. For a non-empty list of SARIF files whose documents all share version
`v`, `combineSarifFiles` succeeds and returns the serialization of the
document whose `version` is `v` and whose `runs` are the concatenation of the
inputs' runs in input order. -/
theorem combineSarifFiles_concat (readDoc : String → SarifDocument)
    (stringify : CombinedSarif → String) (files : List String) (v : String)
    (hne : files ≠ [])
    (hv : ∀ f ∈ files, (readDoc f).version = v) :
    combineSarifFiles readDoc stringify files =
      .ok (stringify ⟨some v, files.flatMap (fun f => (readDoc f).runs)⟩) := by
  match files, hne with
  | f :: rest, _ =>
    have hf : (readDoc f).version = v := hv f (by simp)
    simp only [combineSarifFiles, combineSarifDocs, combineSarifAux]
    rw [hf, combineSarifAux_all_eq readDoc v rest _ (fun g hg => hv g (by simp [hg]))]
    simp [List.flatMap_cons, Except.map]

/-- C1 witness: combining `a.sarif` (version "2.1.0", one run with two
results) and `b.sarif` (version "2.1.0", one empty run) yields the
serialized document with both runs in order. -/
theorem combineSarifFiles_concat_witness :
    combineSarifFiles
      (fun f => if f = "a.sarif" then ⟨"2.1.0", [⟨["r1", "r2"]⟩]⟩ else ⟨"2.1.0", [⟨[]⟩]⟩)
      (fun c => toString (c.runs.map (fun r => r.results.length)))
      ["a.sarif", "b.sarif"] =
      .ok (toString [2, 0]) := by
  have h := combineSarifFiles_concat
    (fun f => if f = "a.sarif" then ⟨"2.1.0", [⟨["r1", "r2"]⟩]⟩ else ⟨"2.1.0", [⟨[]⟩]⟩)
    (fun c => toString (c.runs.map (fun r => r.results.length)))
    ["a.sarif", "b.sarif"] "2.1.0" (by decide)
    (by intro f hf; fin_cases hf <;> decide)
  rw [h]
  rfl

/-- C2. If some two input documents carry differing `version` values,
`combineSarifFiles` throws a version-mismatch error naming two distinct
versions and returns no merged document. -/
theorem combineSarifFiles_version_mismatch (readDoc : String → SarifDocument)
    (stringify : CombinedSarif → String) (files : List String)
    (h : ∃ f ∈ files, ∃ g ∈ files, (readDoc f).version ≠ (readDoc g).version) :
    ∃ v1 v2, v1 ≠ v2 ∧
      combineSarifFiles readDoc stringify files = .error (.versionMismatch v1 v2) := by
  match files with
  | [] => simp at h
  | f0 :: rest =>
    set v0 := (readDoc f0).version with hv0
    have hrest : ∃ g ∈ rest, (readDoc g).version ≠ v0 := by
      rcases h with ⟨f, hf, g, hg, hfg⟩
      by_cases hfv : (readDoc f).version = v0
      · rcases List.mem_cons.mp hg with rfl | hgrest
        · exact absurd (hfv.trans hv0) hfg
        · exact ⟨g, hgrest, fun hc => hfg (hfv.trans hc.symm)⟩
      · rcases List.mem_cons.mp hf with rfl | hfrest
        · exact absurd hv0.symm hfv
        · exact ⟨f, hfrest, hfv⟩
    rcases combineSarifAux_mismatch readDoc v0 rest ([] ++ (readDoc f0).runs) hrest with
      ⟨w, hw, hrun⟩
    refine ⟨v0, w, fun hc => hw hc.symm, ?_⟩
    simp only [combineSarifFiles, combineSarifDocs, combineSarifAux]
    rw [hrun]
    rfl

/-- C2 witness: combining a version-"2.1.0" file with a version-"2.0.0" file
fails with a version-mismatch error naming two distinct versions. -/
theorem combineSarifFiles_version_mismatch_witness :
    ∃ v1 v2, v1 ≠ v2 ∧
      combineSarifFiles
        (fun f => if f = "a.sarif" then ⟨"2.1.0", [⟨["r1"]⟩]⟩ else ⟨"2.0.0", []⟩)
        (fun c => toString (c.runs.map (fun r => r.results.length)))
        ["a.sarif", "b.sarif"] = .error (.versionMismatch v1 v2) :=
  combineSarifFiles_version_mismatch
    (fun f => if f = "a.sarif" then ⟨"2.1.0", [⟨["r1"]⟩]⟩ else ⟨"2.0.0", []⟩)
    (fun c => toString (c.runs.map (fun r => r.results.length)))
    ["a.sarif", "b.sarif"]
    ⟨"a.sarif", by decide, "b.sarif", by decide, by decide⟩

/-- When every file passes schema validation, the validation loop succeeds
and records one `schemaValidated` event per file, in order. -/
lemma validateFiles_all_valid (isValidSarif : String → Bool) (files : List String)
    (h : ∀ f ∈ files, isValidSarif f = true) :
    validateFiles isValidSarif files = (.ok (), files.map .schemaValidated) := by
  induction files with
  | nil => rfl
  | cons f rest ih =>
    have hf : isValidSarif f = true := h f (by simp)
    simp only [validateFiles, hf, if_pos rfl]
    rw [ih (fun g hg => h g (by simp [hg]))]
    simp

/-- Characterization of the success path of `uploadFiles`: guard not tripped,
every file valid, combination succeeded.  The result is the status report
with the three observability numbers, and the trace is the export event (in
actions mode), one validation event per file, and the events of
`uploadPayload`. -/
lemma uploadFiles_success (C : Collaborators) (env : EnvMap) (files : List String)
    (args : UploadArgs) (mode : Mode) (combined : String)
    (hguard : ¬(mode = .actions ∧ envTruthy (env "CODEQL_UPLOAD_SARIF") = true))
    (hvalid : ∀ f ∈ files, C.isValidSarif f = true)
    (hcomb : combineSarifFiles C.readDoc C.stringify files = .ok combined) :
    uploadFiles C env files args mode =
      (.ok ⟨(C.addFingerprints combined args.checkoutPath).length,
            (C.base64 (C.gzip (C.addFingerprints combined args.checkoutPath))).length,
            countResultsInSarif C.parseRuns (C.addFingerprints combined args.checkoutPath)⟩,
       (match mode with
         | .actions => [.exportVariable "CODEQL_UPLOAD_SARIF" "CODEQL_UPLOAD_SARIF"]
         | .standalone => []) ++
       files.map .schemaValidated ++
       uploadPayload env
         (assemblePayload env args mode
           (C.base64 (C.gzip (C.addFingerprints combined args.checkoutPath)))
           (C.fileUrl args.checkoutPath)
           (C.getToolNames (C.addFingerprints combined args.checkoutPath)))
         args.owner args.repo mode) := by
  simp only [uploadFiles]
  rw [if_neg hguard, validateFiles_all_valid C.isValidSarif files hvalid, hcomb]

/-- The validation loop only ever throws invalid-SARIF errors. -/
lemma validateFiles_fst_error (isValidSarif : String → Bool) (files : List String)
    (e : UploadError) (h : (validateFiles isValidSarif files).1 = .error e) :
    ∃ f, e = .invalidSarif f := by
  induction files with
  | nil => simp [validateFiles] at h
  | cons f rest ih =>
    by_cases hf : isValidSarif f
    · simp only [validateFiles, hf, if_pos rfl] at h
      exact ih h
    · simp only [validateFiles, hf] at h
      exact ⟨f, (Except.error.injEq _ _ |>.mp h.symm)⟩

/-- C3. The per-job upload sentinel: in actions mode, when the sentinel
environment variable is already set the whole call fails with the
duplicate-upload error and the event trace is empty (no schema validation,
no export, no network work); when the sentinel is unset the guard claim
succeeds (the call never fails with the duplicate-upload error and its first
action is exporting the sentinel); in standalone mode the sentinel is never
consulted (changing it does not change the outcome). -/
theorem uploadFiles_upload_guard (C : Collaborators) (env : EnvMap)
    (files : List String) (args : UploadArgs) (v : Option String) :
    (envTruthy (env "CODEQL_UPLOAD_SARIF") = true →
      uploadFiles C env files args .actions = (.error .duplicateUpload, [])) ∧
    (envTruthy (env "CODEQL_UPLOAD_SARIF") = false →
      (uploadFiles C env files args .actions).1 ≠ .error .duplicateUpload ∧
      ∃ rest, (uploadFiles C env files args .actions).2 =
        .exportVariable "CODEQL_UPLOAD_SARIF" "CODEQL_UPLOAD_SARIF" :: rest) ∧
    uploadFiles C (setEnv env "CODEQL_UPLOAD_SARIF" v) files args .standalone =
      uploadFiles C env files args .standalone := by
  refine ⟨fun h => ?_, fun h => ?_, ?_⟩
  · simp only [uploadFiles]
    rw [if_pos (by simp [h])]
  · simp only [uploadFiles]
    rw [if_neg (fun hc => by rw [h] at hc; exact Bool.false_ne_true hc.2)]
    cases hval : validateFiles C.isValidSarif files with
    | mk r vevs =>
      cases r with
      | error e =>
        rcases validateFiles_fst_error C.isValidSarif files e (by rw [hval]) with ⟨f, rfl⟩
        exact ⟨by simp, _, rfl⟩
      | ok u =>
        cases hcomb : combineSarifFiles C.readDoc C.stringify files with
        | error ce =>
          cases ce with
          | versionMismatch v1 v2 => exact ⟨by simp, _, rfl⟩
        | ok combined => exact ⟨by simp, _, rfl⟩
  · have hts : setEnv env "CODEQL_UPLOAD_SARIF" v "TEST_MODE" = env "TEST_MODE" := by
      simp [setEnv]
    simp only [uploadFiles]
    rw [if_neg (by simp), if_neg (by simp)]
    cases hval : validateFiles C.isValidSarif files with
    | mk r vevs =>
      cases r with
      | error e => rfl
      | ok u =>
        cases hcomb : combineSarifFiles C.readDoc C.stringify files with
        | error ce => cases ce with | versionMismatch v1 v2 => rfl
        | ok combined =>
          simp only [uploadPayload, assemblePayload, hts]

/-- Validation events are never network requests. -/
lemma filter_network_schemaValidated (files : List String) :
    (files.map UploadEvent.schemaValidated).filter UploadEvent.isNetworkRequest = [] := by
  induction files with
  | nil => rfl
  | cons f rest ih => simp [List.filter_cons, UploadEvent.isNetworkRequest, ih]

/-- C4. On the success path with test mode off, the trace contains exactly one
network request; its payload's `sarif` field is the base64 rendering of the
gzip compression of the fingerprint-enriched serialization of the combined
document (never the raw combined document), and in standalone mode the
payload carries only the first detected tool name. -/
theorem uploadFiles_wire_payload (C : Collaborators) (env : EnvMap)
    (files : List String) (args : UploadArgs) (mode : Mode) (combined : String)
    (hguard : ¬(mode = .actions ∧ envTruthy (env "CODEQL_UPLOAD_SARIF") = true))
    (hvalid : ∀ f ∈ files, C.isValidSarif f = true)
    (hcomb : combineSarifFiles C.readDoc C.stringify files = .ok combined)
    (htest : ¬env "TEST_MODE" = some "true") :
    ∃ url p,
      (uploadFiles C env files args mode).2.filter UploadEvent.isNetworkRequest =
        [.networkRequest url args.owner args.repo p] ∧
      p.sarifField = C.base64 (C.gzip (C.addFingerprints combined args.checkoutPath)) ∧
      (mode = .standalone →
        p = .standalonePayload args.commitOid args.ref
              (C.base64 (C.gzip (C.addFingerprints combined args.checkoutPath)))
              (C.fileUrl args.checkoutPath)
              ((C.getToolNames (C.addFingerprints combined args.checkoutPath)).head?)) := by
  rw [uploadFiles_success C env files args mode combined hguard hvalid hcomb]
  cases mode with
  | actions =>
    refine ⟨"PUT /repos/:owner/:repo/code-scanning/analysis",
      assemblePayload env args .actions
        (C.base64 (C.gzip (C.addFingerprints combined args.checkoutPath)))
        (C.fileUrl args.checkoutPath)
        (C.getToolNames (C.addFingerprints combined args.checkoutPath)),
      ?_, rfl, fun hc => by cases hc⟩
    simp [uploadPayload, htest, List.filter_append, filter_network_schemaValidated,
      UploadEvent.isNetworkRequest, List.filter_cons]
  | standalone =>
    refine ⟨"POST /repos/:owner/:repo/code-scanning/sarifs",
      assemblePayload env args .standalone
        (C.base64 (C.gzip (C.addFingerprints combined args.checkoutPath)))
        (C.fileUrl args.checkoutPath)
        (C.getToolNames (C.addFingerprints combined args.checkoutPath)),
      ?_, rfl, fun _ => rfl⟩
    simp [uploadPayload, htest, List.filter_append, filter_network_schemaValidated,
      UploadEvent.isNetworkRequest, List.filter_cons]

/-- C7. On the success path, the reported raw upload size is the length of
the fingerprint-enriched JSON string (after enrichment, before compression)
and the reported zipped upload size is the length of the base64 text produced
after compression (not the compressed byte count); both numbers are returned
unchanged in the status report. -/
theorem uploadFiles_size_metrics (C : Collaborators) (env : EnvMap)
    (files : List String) (args : UploadArgs) (mode : Mode) (combined : String)
    (hguard : ¬(mode = .actions ∧ envTruthy (env "CODEQL_UPLOAD_SARIF") = true))
    (hvalid : ∀ f ∈ files, C.isValidSarif f = true)
    (hcomb : combineSarifFiles C.readDoc C.stringify files = .ok combined) :
    ∃ report, (uploadFiles C env files args mode).1 = .ok report ∧
      report.rawUploadSizeBytes =
        (C.addFingerprints combined args.checkoutPath).length ∧
      report.zippedUploadSizeBytes =
        (C.base64 (C.gzip (C.addFingerprints combined args.checkoutPath))).length := by
  rw [uploadFiles_success C env files args mode combined hguard hvalid hcomb]
  exact ⟨_, rfl, rfl, rfl⟩

/-- C9. With the test-mode flag active, the upload performs no network call at
all, yet still returns the status report carrying the three observability
numbers computed from the payload. -/
theorem uploadFiles_test_mode (C : Collaborators) (env : EnvMap)
    (files : List String) (args : UploadArgs) (mode : Mode) (combined : String)
    (hguard : ¬(mode = .actions ∧ envTruthy (env "CODEQL_UPLOAD_SARIF") = true))
    (hvalid : ∀ f ∈ files, C.isValidSarif f = true)
    (hcomb : combineSarifFiles C.readDoc C.stringify files = .ok combined)
    (htest : env "TEST_MODE" = some "true") :
    (uploadFiles C env files args mode).1 =
      .ok ⟨(C.addFingerprints combined args.checkoutPath).length,
           (C.base64 (C.gzip (C.addFingerprints combined args.checkoutPath))).length,
           countResultsInSarif C.parseRuns (C.addFingerprints combined args.checkoutPath)⟩ ∧
    ∀ e ∈ (uploadFiles C env files args mode).2, e.isNetworkRequest = false := by
  rw [uploadFiles_success C env files args mode combined hguard hvalid hcomb]
  refine ⟨rfl, ?_⟩
  intro e he
  rw [List.mem_append] at he
  rcases he with hgm | hu
  · rw [List.mem_append] at hgm
    rcases hgm with hg | hm
    · cases mode with
      | actions =>
        simp only [List.mem_singleton] at hg
        subst hg
        rfl
      | standalone => simp at hg
    · rcases List.mem_map.mp hm with ⟨f, _, rfl⟩
      rfl
  · simp [uploadPayload, htest] at hu

/-- C10. When the upload path is a directory, exactly the contained files
whose names end in ".sarif" are selected (an error if there are none); when
it is a single existing file it is uploaded as-is, with no extension
filtering. -/
theorem upload_path_selection (fsys : FileSystem) (C : Collaborators) (env : EnvMap)
    (sarifPath : String) (args : UploadArgs) (mode : Mode)
    (hex : fsys.existsSync sarifPath = true) :
    (fsys.isDirectory sarifPath = true →
      ((fsys.readdirSync sarifPath).filter (fun f => strEndsWith f ".sarif") = [] →
        upload fsys C env sarifPath args mode =
          (.error (.noSarifFilesFound sarifPath), [])) ∧
      ((fsys.readdirSync sarifPath).filter (fun f => strEndsWith f ".sarif") ≠ [] →
        upload fsys C env sarifPath args mode =
          uploadFiles C env
            (((fsys.readdirSync sarifPath).filter (fun f => strEndsWith f ".sarif")).map
              (pathResolve sarifPath)) args mode)) ∧
    (fsys.isDirectory sarifPath = false →
      upload fsys C env sarifPath args mode = uploadFiles C env [sarifPath] args mode) := by
  refine ⟨fun hdir => ⟨fun hnil => ?_, fun hne => ?_⟩, fun hnd => ?_⟩
  · simp [upload, hex, hdir, hnil]
  · simp [upload, hex, hdir, hne]
  · simp [upload, hex, hnd]

/-- C3 witness: at the concrete fixtures, a claimed sentinel aborts with the
duplicate-upload error and an empty trace, a fresh job does not fail with
that error, and in standalone mode setting the sentinel changes nothing. -/
theorem uploadFiles_upload_guard_witness :
    uploadFiles testCollab testEnvClaimed ["a.sarif"] testArgs .actions =
      (.error .duplicateUpload, []) ∧
    (uploadFiles testCollab testEnvEmpty ["a.sarif"] testArgs .actions).1 ≠
      .error .duplicateUpload ∧
    uploadFiles testCollab (setEnv testEnvEmpty "CODEQL_UPLOAD_SARIF" (some "x"))
        ["a.sarif"] testArgs .standalone =
      uploadFiles testCollab testEnvEmpty ["a.sarif"] testArgs .standalone :=
  ⟨(uploadFiles_upload_guard testCollab testEnvClaimed ["a.sarif"] testArgs
      (some "x")).1 (by decide),
   ((uploadFiles_upload_guard testCollab testEnvEmpty ["a.sarif"] testArgs
      (some "x")).2.1 (by decide)).1,
   (uploadFiles_upload_guard testCollab testEnvEmpty ["a.sarif"] testArgs
      (some "x")).2.2⟩

/-- C4 witness: at the concrete fixtures (standalone mode, one file whose
combined serialization is "r1r2"), the single network request carries the
base64'd gzip of the fingerprinted document and the first tool name. -/
theorem uploadFiles_wire_payload_witness :
    ∃ url p,
      (uploadFiles testCollab testEnvEmpty ["a.sarif"] testArgs .standalone).2.filter
          UploadEvent.isNetworkRequest =
        [.networkRequest url testArgs.owner testArgs.repo p] ∧
      p.sarifField =
        testCollab.base64
          (testCollab.gzip (testCollab.addFingerprints "r1r2" testArgs.checkoutPath)) ∧
      (Mode.standalone = Mode.standalone →
        p = .standalonePayload testArgs.commitOid testArgs.ref
              (testCollab.base64
                (testCollab.gzip (testCollab.addFingerprints "r1r2" testArgs.checkoutPath)))
              (testCollab.fileUrl testArgs.checkoutPath)
              ((testCollab.getToolNames
                (testCollab.addFingerprints "r1r2" testArgs.checkoutPath)).head?)) :=
  uploadFiles_wire_payload testCollab testEnvEmpty ["a.sarif"] testArgs .standalone "r1r2"
    (by decide) (fun f _ => rfl) rfl (by decide)

/-- C7 witness: at the concrete fixtures the status report records the length
of the fingerprinted string and the length of the base64 text. -/
theorem uploadFiles_size_metrics_witness :
    ∃ report,
      (uploadFiles testCollab testEnvEmpty ["a.sarif"] testArgs .standalone).1 =
        .ok report ∧
      report.rawUploadSizeBytes =
        (testCollab.addFingerprints "r1r2" testArgs.checkoutPath).length ∧
      report.zippedUploadSizeBytes =
        (testCollab.base64
          (testCollab.gzip (testCollab.addFingerprints "r1r2" testArgs.checkoutPath))).length :=
  uploadFiles_size_metrics testCollab testEnvEmpty ["a.sarif"] testArgs .standalone "r1r2"
    (by decide) (fun f _ => rfl) rfl

/-- C9 witness: with TEST_MODE="true" the upload returns the three
observability numbers and its trace contains no network request. -/
theorem uploadFiles_test_mode_witness :
    (uploadFiles testCollab testEnvTestMode ["a.sarif"] testArgs .actions).1 =
      .ok ⟨(testCollab.addFingerprints "r1r2" testArgs.checkoutPath).length,
           (testCollab.base64
             (testCollab.gzip (testCollab.addFingerprints "r1r2" testArgs.checkoutPath))).length,
           countResultsInSarif testCollab.parseRuns
             (testCollab.addFingerprints "r1r2" testArgs.checkoutPath)⟩ ∧
    ∀ e ∈ (uploadFiles testCollab testEnvTestMode ["a.sarif"] testArgs .actions).2,
      e.isNetworkRequest = false :=
  uploadFiles_test_mode testCollab testEnvTestMode ["a.sarif"] testArgs .actions "r1r2"
    (by decide) (fun f _ => rfl) rfl (by decide)

/-- C10 witness: uploading the directory "dir" selects exactly its two
".sarif" entries, and uploading the single file "file.json" uploads it
despite its extension. -/
theorem upload_path_selection_witness :
    upload testFS testCollab testEnvEmpty "dir" testArgs .standalone =
      uploadFiles testCollab testEnvEmpty ["dir/a.sarif", "dir/b.sarif"] testArgs
        .standalone ∧
    upload testFS testCollab testEnvEmpty "file.json" testArgs .standalone =
      uploadFiles testCollab testEnvEmpty ["file.json"] testArgs .standalone :=
  ⟨((upload_path_selection testFS testCollab testEnvEmpty "dir" testArgs .standalone
      (by decide)).1 (by decide)).2 (by decide),
   (upload_path_selection testFS testCollab testEnvEmpty "file.json" testArgs .standalone
      (by decide)).2 (by decide)⟩

/-- C5. For a transmitted status report (public endpoint, not a local run):
with `ignoreFailures` false the call returns false and fails the job exactly
when the response status is 403 or 404, and returns true otherwise; with
`ignoreFailures` true it returns true without failing the job, for any
response status. -/
theorem sendStatusReport_outcome {S : Type} (env : EnvMap) (report : S)
    (respStatus : Nat) (nwo : String)
    (hurl : env "GITHUB_SERVER_URL" = some GITHUB_DOTCOM_URL)
    (hrepo : env "GITHUB_REPOSITORY" = some nwo) (hnwo : nwo.length ≠ 0) :
    (∃ r : SendResult,
        sendStatusReport env false report respStatus false = .ok r ∧
        r.networkCalled = true ∧
        (r.returned = false ↔ (respStatus = 403 ∨ respStatus = 404)) ∧
        (r.jobFailed = true ↔ (respStatus = 403 ∨ respStatus = 404))) ∧
    sendStatusReport env false report respStatus true = .ok ⟨true, false, true⟩ := by
  have hsrv : getRequiredEnvParam env "GITHUB_SERVER_URL" = .ok GITHUB_DOTCOM_URL := by
    simp only [getRequiredEnvParam, hurl]
    rw [if_neg (by decide)]
  have hrep : getRequiredEnvParam env "GITHUB_REPOSITORY" = .ok nwo := by
    simp only [getRequiredEnvParam, hrepo]
    rw [if_neg hnwo]
  constructor
  · by_cases h3 : respStatus = 403
    · exact ⟨⟨false, true, true⟩, by simp [sendStatusReport, hsrv, hrep, h3],
        rfl, by simp [h3], by simp [h3]⟩
    · by_cases h4 : respStatus = 404
      · exact ⟨⟨false, true, true⟩, by simp [sendStatusReport, hsrv, hrep, h3, h4],
          rfl, by simp [h4], by simp [h4]⟩
      · exact ⟨⟨true, false, true⟩, by simp [sendStatusReport, hsrv, hrep, h3, h4],
          rfl, by simp [h3, h4], by simp [h3, h4]⟩
  · simp [sendStatusReport, hsrv, hrep]

/-- C5 witness: at the concrete environment, an HTTP 404 with
`ignoreFailures = false` yields `returned = false` and a failed job, and any
response with `ignoreFailures = true` yields `returned = true`. -/
theorem sendStatusReport_outcome_witness :
    (∃ r : SendResult,
        sendStatusReport testEnvSend false "report" 404 false = .ok r ∧
        r.networkCalled = true ∧
        (r.returned = false ↔ ((404 : Nat) = 403 ∨ (404 : Nat) = 404)) ∧
        (r.jobFailed = true ↔ ((404 : Nat) = 403 ∨ (404 : Nat) = 404))) ∧
    sendStatusReport testEnvSend false "report" 404 true = .ok ⟨true, false, true⟩ :=
  sendStatusReport_outcome testEnvSend "report" 404 "octo/repo" rfl rfl (by decide)

/-- C6 counterexample: with the workflow run id, job name and commit id all
absent from the environment (`GITHUB_REF` and the cached analysis key
present), `createStatusReportBase` succeeds — defaulting the absent identity
values to -1 and "" — instead of failing as the claim requires. -/
theorem createStatusReportBase_absent_identity_ok :
    testEnvStatus "GITHUB_RUN_ID" = none ∧
    testEnvStatus "GITHUB_JOB" = none ∧
    testEnvStatus "GITHUB_SHA" = none ∧
    createStatusReportBase testEnvStatus testInputs (some "c0ffee") "wf.yml" "T1"
        .init .starting "T0" none none =
      .ok { workflow_run_id := .int (-1), workflow_name := "", job_name := "",
            analysis_key := "wf:job", matrix_vars := some "{}", commit_oid := "",
            ref := "refs/heads/main", action_name := .init, action_oid := "unknown",
            started_at := "T0", action_started_at := "T0", completed_at := none,
            status := .starting, cause := none, exception := none } :=
  ⟨rfl, rfl, rfl, rfl⟩

/-- C6 (amended). Composing a status report fails when `GITHUB_REF` is absent
(the `getRef` precondition); but the identity values the claim names are
defaulted, not required: with the analysis key cached, git available, a
non-pull-merge ref and the matrix input supplied, composition succeeds even
when `GITHUB_RUN_ID`, `GITHUB_JOB` and `GITHUB_SHA` are all absent,
defaulting them to -1 / "" / "". -/
theorem createStatusReportBase_identity_requirements (env inputs : EnvMap)
    (gitCommit : Option String) (apiWorkflowPath now : String)
    (actionName : ActionName) (status : ActionStatus) (actionStartedAt : String)
    (cause exception : Option String) :
    (env "GITHUB_REF" = none →
      createStatusReportBase env inputs gitCommit apiWorkflowPath now actionName
          status actionStartedAt cause exception =
        .error "GITHUB_REF environment variable must be set") ∧
    (∀ k oid r m, env "CODEQL_ACTION_ANALYSIS_KEY" = some k → gitCommit = some oid →
      env "GITHUB_REF" = some r → r.length ≠ 0 → isPullMergeRef r = false →
      inputs "matrix" = some m → m ≠ "" →
      ∃ rep, createStatusReportBase env inputs gitCommit apiWorkflowPath now actionName
          status actionStartedAt cause exception = .ok rep ∧
        (env "GITHUB_RUN_ID" = none → rep.workflow_run_id = .int (-1)) ∧
        (env "GITHUB_JOB" = none → rep.job_name = "") ∧
        (env "GITHUB_SHA" = none → rep.commit_oid = "")) := by
  constructor
  · intro href
    simp [createStatusReportBase, getRef, getRequiredEnvParam, href]
  · intro k oid r m hkey hgit href hr hpm hm hmne
    subst hgit
    have hgr : getRef env (some oid) = .ok r := by
      simp only [getRef, getRequiredEnvParam, href, getCommitOid]
      rw [if_neg hr]
      simp [hpm]
    have hak : getAnalysisKey env apiWorkflowPath = .ok k := by
      simp [getAnalysisKey, hkey]
    have hmx : getRequiredInput inputs "matrix" = .ok (strTrim m) := by
      simp [getRequiredInput, hm, hmne]
    refine ⟨{
      workflow_run_id :=
        match env "GITHUB_RUN_ID" with
        | some s => if s ≠ "" then parseIntJS s else .int (-1)
        | none => .int (-1)
      workflow_name := (env "GITHUB_WORKFLOW").getD ""
      job_name := (env "GITHUB_JOB").getD ""
      analysis_key := k
      matrix_vars := if strTrim m ≠ "" then some (strTrim m) else none
      commit_oid := (env "GITHUB_SHA").getD ""
      ref := r
      action_name := actionName
      action_oid := "unknown"
      started_at :=
        match env "CODEQL_WORKFLOW_STARTED_AT" with
        | some s => s
        | none => actionStartedAt
      action_started_at := actionStartedAt
      completed_at :=
        if status = .success ∨ status = .failure ∨ status = .aborted then some now
        else none
      status := status
      cause := optTruthy cause
      exception := optTruthy exception }, ?_, ?_, ?_, ?_⟩
    · simp only [createStatusReportBase, hgr, hak, hmx]
    · intro hrun
      simp [hrun]
    · intro hjob
      simp [hjob]
    · intro hsha
      simp [hsha]

/-- C6 witness (for the amended claim): a missing `GITHUB_REF` fails with the
required-variable error, and at the concrete environment with run id, job
name and commit id absent, composition succeeds with the defaults. -/
theorem createStatusReportBase_identity_requirements_witness :
    createStatusReportBase (fun _ => none) testInputs (some "c0ffee") "wf.yml" "T1"
        .init .starting "T0" none none =
      .error "GITHUB_REF environment variable must be set" ∧
    ∃ rep, createStatusReportBase testEnvStatus testInputs (some "c0ffee") "wf.yml" "T1"
        .init .starting "T0" none none = .ok rep ∧
      (testEnvStatus "GITHUB_RUN_ID" = none → rep.workflow_run_id = .int (-1)) ∧
      (testEnvStatus "GITHUB_JOB" = none → rep.job_name = "") ∧
      (testEnvStatus "GITHUB_SHA" = none → rep.commit_oid = "") :=
  ⟨(createStatusReportBase_identity_requirements (fun _ => none) testInputs
      (some "c0ffee") "wf.yml" "T1" .init .starting "T0" none none).1 rfl,
   (createStatusReportBase_identity_requirements testEnvStatus testInputs
      (some "c0ffee") "wf.yml" "T1" .init .starting "T0" none none).2
     "wf:job" "c0ffee" "refs/heads/main" "{}" rfl rfl rfl (by decide) (by decide)
     rfl (by decide)⟩

/-- C8. For every successfully composed status report, `completed_at` is
populated exactly when the status argument is one of the three terminal
values (success, failure, aborted), and never when it is `starting`. -/
theorem createStatusReportBase_completed_at (env inputs : EnvMap)
    (gitCommit : Option String) (apiWorkflowPath now : String)
    (actionName : ActionName) (status : ActionStatus) (actionStartedAt : String)
    (cause exception : Option String) (rep : StatusReportBase)
    (h : createStatusReportBase env inputs gitCommit apiWorkflowPath now actionName
        status actionStartedAt cause exception = .ok rep) :
    (rep.completed_at.isSome ↔
      (status = .success ∨ status = .failure ∨ status = .aborted)) ∧
    (status = .starting → rep.completed_at = none) := by
  have hc : rep.completed_at =
      if status = .success ∨ status = .failure ∨ status = .aborted then some now
      else none := by
    simp only [createStatusReportBase] at h
    cases hgr : getRef env gitCommit with
    | error e => rw [hgr] at h; simp at h
    | ok ref =>
      rw [hgr] at h
      cases hak : getAnalysisKey env apiWorkflowPath with
      | error e => rw [hak] at h; simp at h
      | ok key =>
        rw [hak] at h
        cases hmx : getRequiredInput inputs "matrix" with
        | error e => rw [hmx] at h; simp at h
        | ok mx =>
          rw [hmx] at h
          simp only [Except.ok.injEq] at h
          rw [← h]
  rw [hc]
  constructor
  · cases status <;> simp
  · intro hs
    subst hs
    simp

/-- C8 witness: at the concrete fixtures with status `success`, the composed
report's `completed_at` is populated. -/
theorem createStatusReportBase_completed_at_witness :
    (testRepSuccess.completed_at.isSome ↔
      (ActionStatus.success = .success ∨ ActionStatus.success = .failure ∨
        ActionStatus.success = .aborted)) ∧
    (ActionStatus.success = .starting → testRepSuccess.completed_at = none) :=
  createStatusReportBase_completed_at testEnvStatus testInputs (some "c0ffee")
    "wf.yml" "T1" .init .success "T0" none none testRepSuccess rfl
